import Mathlib

/- Verification of the rdfox_runner process-supervisor core: a shallow embedding
of `run_rdfox.py` (the RDFox output classifier and runner), `command_runner.py`
(the subprocess lifecycle) and `run_in_dir.py` (the one-shot runner), with
theorems checking the design spec against the code. -/

namespace RdfoxRunner

/- Python string primitives, modelled over `String.data`.  Whitespace is the
ASCII whitespace set used by Python `str.strip` / `str.rstrip`. -/

def pyIsSpace (c : Char) : Bool :=
  c = ' ' || c = '\t' || c = '\n' || c = '\x0d' || c = '\x0b' || c = '\x0c'

/- Does the first list lead (occur as an initial segment of) the second? -/
def leadsList : List Char → List Char → Bool
  | [], _ => true
  | _ :: _, [] => false
  | a :: as, b :: bs => a = b && leadsList as bs

/- Python `line.startswith(pre)`. -/
def pyStartsWith (s pre : String) : Bool := leadsList pre.data s.data

/- Python `s.rstrip()` with no arguments. -/
def pyRstrip (s : String) : String := ⟨(s.data.reverse.dropWhile pyIsSpace).reverse⟩

/- Python `s.strip()` with no arguments. -/
def pyStrip (s : String) : String :=
  ⟨((s.data.dropWhile pyIsSpace).reverse.dropWhile pyIsSpace).reverse⟩

/- Python `"\n".join(l)`. -/
def joinNL (l : List String) : String := String.intercalate "\n" l

/- Regex fragment `.*post` matched against a remainder: holds iff the remainder
splits as `mid ++ post ++ rest` with `mid` free of newlines (`.` does not match
a newline). -/
def dotStarThen (post : List Char) : List Char → Bool
  | [] => leadsList post []
  | c :: cs => leadsList post (c :: cs) || (decide (c ≠ '\n') && dotStarThen post cs)

/- Python `needle in hay` (plain substring containment). -/
def subOf (needle : List Char) : List Char → Bool
  | [] => leadsList needle []
  | c :: cs => leadsList needle (c :: cs) || subOf needle cs

def pyContains (hay needle : String) : Bool := subOf needle.data hay.data

/- The single-quote character, used inside the RDFox message patterns. -/
def sq : Char := '\x27'

def sqs : String := String.singleton sq

/- Patterns from `run_rdfox.py`.  Each Python regex is applied with `re.match`,
i.e. anchored at the start of the line, not at its end. -/

/- ERROR_PATTERN: alternation of six branches, each a literal prefix possibly
holding a greedy `.*` before further literal text. -/
def errorPatternMatch (line : String) : Bool :=
  pyStartsWith line "Error: " ||
  (pyStartsWith line ("File with name " ++ sqs) &&
    dotStarThen (sqs ++ " cannot be found").data
      (line.data.drop ("File with name " ++ sqs).length)) ||
  (pyStartsWith line ("Name " ++ sqs) &&
    dotStarThen (sqs ++ " cannot be resolved to a file relative to either").data
      (line.data.drop ("Name " ++ sqs).length)) ||
  (pyStartsWith line "Script file " &&
    dotStarThen (" cannot be found").data (line.data.drop "Script file ".length)) ||
  (pyStartsWith line ("Unknown command " ++ sqs) &&
    dotStarThen sqs.data (line.data.drop ("Unknown command " ++ sqs).length)) ||
  pyStartsWith line "The server could not start listening"

/- MULTILINE_ERROR_PATTERN. -/
def multilinePatternMatch (line : String) : Bool :=
  pyStartsWith line "An error occurred while executing the command:"

def endpointPatternText : String :=
  "The REST endpoint was successfully started at port number/service name "

/- ENDPOINT_PATTERN: literal prefix then a capture group `(\S+)`; returns the
captured port (the maximal nonempty run of non-whitespace characters). -/
def endpointMatch (line : String) : Option String :=
  if pyStartsWith line endpointPatternText then
    let rest := line.data.drop endpointPatternText.length
    let port := rest.takeWhile (fun c => !pyIsSpace c)
    if port.isEmpty then none else some ⟨port⟩
  else none

def criticalMarker : String := "A critical error occurred while running RDFox:"

def oomMessage : String := "The RDFox instance has run out of memory."

def stopRequestedText : String :=
  "Stopping shell evaluation due to " ++ sqs ++ "on-error" ++ sqs ++ " policy"

/- Value of `self._multiline_error`, which in Python is `False`, `True` or a
list of strings; Python truthiness makes an empty list falsy. -/
inductive MLE where
  | off : MLE
  | started : MLE
  | acc : List String → MLE
deriving DecidableEq, Repr

def MLE.truthy : MLE → Bool
  | .off => false
  | .started => true
  | .acc l => !l.isEmpty

/- Classifier-visible state of an `RDFoxRunner` instance.  `hasGate` records
whether `self._endpoint_ready` is an Event (wait policy "endpoint") or `None`;
`gateSet` whether `set()` has been called on it; `connected` the connection
strings passed to `endpoint.connect`; `quitRequests` the number of times the
classifier invoked `send_quit`. -/
structure RState where
  multilineError : MLE
  criticalError : Bool
  criticalErrorMessage : String
  errors : List String
  stoppedOnError : Bool
  hasGate : Bool
  gateSet : Bool
  connected : List String
  quitRequests : Nat
deriving DecidableEq, Repr

/- State as built by `RDFoxRunner.__init__` and `start`: accumulators cleared,
the gate existing iff the wait policy is "endpoint". -/
def rdfoxInitState (hasGate : Bool) : RState :=
  { multilineError := .off, criticalError := false, criticalErrorMessage := "",
    errors := [], stoppedOnError := false, hasGate := hasGate, gateSet := false,
    connected := [], quitRequests := 0 }

/- Close an accumulated multi-line error: `"\n".join` the buffer, append it to
`self.errors` when non-empty, and leave accumulation mode. -/
def closeBlock (s : RState) : RState :=
  match s.multilineError with
  | .acc l =>
      if joinNL l = "" then { s with multilineError := .off }
      else { s with multilineError := .off, errors := s.errors ++ [joinNL l] }
  | _ => { s with multilineError := .off }

/- The pattern-matching cascade at the bottom of `_check_for_errors`. -/
def classifyRules (s : RState) (line : String) : RState :=
  match endpointMatch line with
  | some port =>
      let s := { s with connected := s.connected ++ ["http://localhost:" ++ port] }
      if s.hasGate then { s with gateSet := true } else s
  | none =>
      if errorPatternMatch line then { s with errors := s.errors ++ [line] }
      else if multilinePatternMatch line then { s with multilineError := .started }
      else if line = criticalMarker then { s with criticalError := true }
      else if pyStartsWith line stopRequestedText then
        let s := { s with stoppedOnError := true, quitRequests := s.quitRequests + 1 }
        if s.hasGate then { s with gateSet := true } else s
      else s

/- One step of `RDFoxRunner._check_for_errors(line)`. -/
def checkForErrors (s : RState) (line : String) : RState :=
  if s.multilineError.truthy then
    if pyStartsWith line " " then
      let buf := match s.multilineError with
        | .started => []
        | .acc l => l
        | .off => []
      let buf := buf ++ [pyStrip line]
      let s := { s with multilineError := .acc buf }
      if pyStrip line = oomMessage then
        { s with criticalErrorMessage := pyStrip line, criticalError := true }
      else s
    else
      classifyRules (closeBlock s) line
  else if s.criticalError && decide (s.criticalErrorMessage = "") then
    { s with criticalErrorMessage := line }
  else
    classifyRules s line

/- Feed a sequence of (already right-stripped) lines to the classifier. -/
def feedLines (s : RState) (lines : List String) : RState :=
  lines.foldl checkForErrors s

/- RDFoxRunner.raise_for_errors: `some msg` models raising
`RuntimeError(msg)`, `none` models returning normally. -/
def raiseForErrors (s : RState) : Option String :=
  if s.criticalError then
    some ("Critical RDFox error: " ++ s.criticalErrorMessage)
  else none

/- One iteration of `output_reader`: the raw (UTF-8-decoded) line is
right-stripped before the callback -- here `_check_for_errors` -- sees it. -/
def outputReaderLine (s : RState) (raw : String) : RState :=
  checkForErrors s (pyRstrip raw)

/- The whole reading task: process every raw line until end-of-stream, then
exit.  Nothing further happens at end-of-stream. -/
def outputReaderRun (s : RState) (raws : List String) : RState :=
  raws.foldl outputReaderLine s

/- Is the caller blocked in `RDFoxRunner.start` on `self._endpoint_ready.wait()`
released by the time the reading task exits?  The event is one-shot and only
ever set, so this is the final value of `gateSet`. -/
def waiterReleased (raws : List String) : Bool :=
  (outputReaderRun (rdfoxInitState true) raws).gateSet

/- CommandRunner lifecycle (`command_runner.py`).  Observable log events that
the claims talk about. -/
inductive LogEvent where
  | errorExit (rc : Int) : LogEvent
  | killedWarning (rc : Int) : LogEvent
  | notStartedWarning : LogEvent
  | cleanupWarning : LogEvent
deriving DecidableEq, Repr

/- State of a `CommandRunner` instance.  `processes` counts `subprocess.Popen`
launches and `staged` counts executions of the input-file copying loop, so that
re-entrancy is observable; `removedDirs` records `shutil.rmtree` calls. -/
structure CRState where
  hasCommand : Bool
  workingDir : Option String
  cleanupWorkingDir : Bool
  hasProcess : Bool
  processes : Nat
  staged : Nat
  returncode : Option Int
  removedDirs : List String
deriving DecidableEq, Repr

/- CommandRunner.__init__: `_cleanup_working_dir = (working_dir is None)`,
forced to `False` when the RDFOX_RUNNER_KEEP_WORKING_DIR environment variable
is set and non-empty.  No process exists and nothing is staged yet. -/
def crInit (explicitDir : Option String) (envKeepSet : Bool) (hasCommand : Bool) :
    CRState :=
  { hasCommand := hasCommand, workingDir := explicitDir,
    cleanupWorkingDir := explicitDir.isNone && !envKeepSet,
    hasProcess := false, processes := 0, staged := 0,
    returncode := none, removedDirs := [] }

/- CommandRunner.setup_files: allocate `mkdtemp()` (modelled by the `fresh`
argument) when no directory is set, then copy every input file in. -/
def setupFiles (fresh : String) (s : CRState) : CRState :=
  let s := match s.workingDir with
    | none => { s with workingDir := some fresh }
    | some _ => s
  { s with staged := s.staged + 1 }

/- CommandRunner.start_subprocess: launch `subprocess.Popen` and the reader
thread.  No guard against being called on an already-running instance. -/
def startSubprocess (s : CRState) : CRState :=
  if s.hasCommand then
    { s with hasProcess := true, processes := s.processes + 1 }
  else s

/- CommandRunner.start = setup_files then (if a command is set)
start_subprocess.  Total: there is no state check and no InvalidStateError. -/
def crStart (fresh : String) (s : CRState) : CRState :=
  startSubprocess (setupFiles fresh s)

/- CommandRunner.stop_subprocess, given the exit status `rc` that
`self._process.poll()` reads back after terminate/wait/kill.  The
CalledProcessError raise is commented out in the source: the function always
returns normally, logging an error for a positive code and a warning for a
negative (killed-by-signal) code. -/
def stopSubprocess (rc : Int) (s : CRState) : CRState × List LogEvent :=
  if !s.hasCommand then (s, [])
  else if !s.hasProcess then (s, [.notStartedWarning])
  else
    ({ s with returncode := some rc },
     if rc > 0 then [.errorExit rc]
     else if rc < 0 then [.killedWarning rc]
     else [])

/- CommandRunner.cleanup_files: remove the working directory only when it is
still set and was auto-created; warn and do nothing on a caller-supplied
directory; do nothing at all when the directory is already gone.  The
`shutil.rmtree(..., ignore_errors=True)` call cannot raise. -/
def cleanupFiles (s : CRState) : CRState × List LogEvent :=
  match s.workingDir with
  | none => (s, [])
  | some d =>
      if !s.cleanupWorkingDir then (s, [.cleanupWarning])
      else ({ s with workingDir := none, removedDirs := s.removedDirs ++ [d] }, [])

/- CommandRunner.stop: stop the subprocess when a command is configured, then
clean up files when the directory was auto-created. -/
def crStop (rc : Int) (s : CRState) : CRState × List LogEvent :=
  let p1 := if s.hasCommand then stopSubprocess rc s else (s, [])
  let p2 := if p1.1.cleanupWorkingDir then cleanupFiles p1.1 else (p1.1, [])
  (p2.1, p1.2 ++ p2.2)

/- RDFoxRunner.__init__ (`run_rdfox.py`).  Errors modelling the two
`ValueError` raises. -/
inductive RDFoxInitError where
  | reservedName : RDFoxInitError
  | invalidWait : RDFoxInitError
deriving DecidableEq, Repr

def masterKey : String := "__master.rdfox"

/- Configuration produced by a successful `RDFoxRunner.__init__`. -/
structure RDFoxConfig where
  inputKeys : List String
  script : String
  wait : String
  command : List String
deriving DecidableEq, Repr

/- RDFoxRunner.__init__: reject the reserved master-script target name; join a
list-valued script with newlines; default the executable; default the wait
policy from the script text or validate an explicit one; then record the final
input mapping (caller files plus the generated master script) and command. -/
def rdfoxRunnerInit (inputKeys : List String) (scriptLines : List String)
    (wait : Option String) (rdfoxExecutable : Option String) :
    Except RDFoxInitError RDFoxConfig :=
  if inputKeys.contains masterKey then .error .reservedName
  else
    let script := joinNL scriptLines
    let exe := rdfoxExecutable.getD "RDFox"
    let wait? : Except RDFoxInitError String :=
      match wait with
      | none => .ok (if pyContains script "endpoint start" then "endpoint" else "exit")
      | some w =>
          if w = "endpoint" ∨ w = "exit" ∨ w = "nothing" then .ok w
          else .error .invalidWait
    match wait? with
    | .error e => .error e
    | .ok w =>
        .ok { inputKeys := inputKeys ++ [masterKey], script := script, wait := w,
              command := [exe, "sandbox", ".", "exec " ++ masterKey] }

/- One-shot runner (`run_in_dir.py`). -/
inductive RunInDirError where
  | calledProcess (rc : Int) (drained : List String) : RunInDirError
  | fileNotFound (path : String) : RunInDirError
deriving DecidableEq, Repr

/- run_subprocess: drain the output stream line by line (each line is
right-stripped before the callback sees it), then raise CalledProcessError iff
the return code is non-zero.  The error carries the full drained stream to
witness that draining happens before the raise. -/
def runSubprocess (outLines : List String) (rc : Int) :
    Except (Int × List String) (List String) :=
  let received := outLines.map pyRstrip
  if rc ≠ 0 then .error (rc, received) else .ok received

/- get_file_contents: read each requested output file; a missing file is a
FileNotFoundError.  `fs` models the working directory contents after the
command has run. -/
def getFileContents (fs : String → Option String)
    (outputFiles : List (String × String)) :
    Except RunInDirError (List (String × String)) :=
  match outputFiles with
  | [] => .ok []
  | (label, relPath) :: rest =>
      match fs relPath with
      | none => .error (.fileNotFound relPath)
      | some content =>
          match getFileContents fs rest with
          | .error e => .error e
          | .ok tail => .ok ((label, content) :: tail)

/- run_in_dir: stage inputs, run the command when one is given (propagating
CalledProcessError), then collect the requested output files. -/
def runInDir (hasCommand : Bool) (outLines : List String) (rc : Int)
    (fs : String → Option String) (outputFiles : List (String × String)) :
    Except RunInDirError (List (String × String)) :=
  if hasCommand then
    match runSubprocess outLines rc with
    | .error (code, drained) => .error (.calledProcess code drained)
    | .ok _ => getFileContents fs outputFiles
  else getFileContents fs outputFiles

/- Claim-side predicate: does the line begin with indentation whitespace? -/
def startsIndented (line : String) : Bool :=
  match line.data with
  | [] => false
  | c :: _ => pyIsSpace c

/- Helper lemmas. -/

theorem not_indented_not_space (line : String) (h : startsIndented line = false) :
    pyStartsWith line " " = false := by
  unfold startsIndented at h
  unfold pyStartsWith
  have hdata : (" " : String).data = [' '] := rfl
  rw [hdata]
  cases hl : line.data with
  | nil => rfl
  | cons c cs =>
      rw [hl] at h
      unfold leadsList
      simp only [Bool.and_eq_false_iff]
      left
      simp only [decide_eq_false_iff_not]
      intro hc
      rw [← hc] at h
      simp [pyIsSpace] at h

theorem classifyRules_empty (s : RState) : classifyRules s "" = s := by
  have h1 : endpointMatch "" = none := by decide
  have h2 : errorPatternMatch "" = false := by decide
  have h3 : multilinePatternMatch "" = false := by decide
  have h4 : ("" = criticalMarker) = False := by simp [criticalMarker]
  have h5 : pyStartsWith "" stopRequestedText = false := by decide
  simp [classifyRules, h1, h2, h3, h4, h5]

theorem closeBlock_multilineError (s : RState) :
    (closeBlock s).multilineError = .off := by
  unfold closeBlock
  cases s.multilineError with
  | off => rfl
  | started => rfl
  | acc l => by_cases h : joinNL l = "" <;> simp [h]

theorem closeBlock_gateSet (s : RState) : (closeBlock s).gateSet = s.gateSet := by
  unfold closeBlock
  cases s.multilineError with
  | off => rfl
  | started => rfl
  | acc l => by_cases h : joinNL l = "" <;> simp [h]

theorem classifyRules_gateSet (s : RState) (line : String)
    (he : endpointMatch line = none)
    (hs : pyStartsWith line stopRequestedText = false) :
    (classifyRules s line).gateSet = s.gateSet := by
  unfold classifyRules
  rw [he]
  simp only [hs]
  split
  · rfl
  · split
    · rfl
    · split
      · rfl
      · simp

theorem checkForErrors_gateSet (s : RState) (line : String)
    (he : endpointMatch line = none)
    (hs : pyStartsWith line stopRequestedText = false) :
    (checkForErrors s line).gateSet = s.gateSet := by
  unfold checkForErrors
  split
  · split
    · split <;> split <;> rfl
    · rw [classifyRules_gateSet _ _ he hs, closeBlock_gateSet]
  · split
    · rfl
    · exact classifyRules_gateSet _ _ he hs

theorem outputReaderRun_gate (raws : List String) (s : RState)
    (hg : s.gateSet = false)
    (h : ∀ raw ∈ raws, endpointMatch (pyRstrip raw) = none ∧
         pyStartsWith (pyRstrip raw) stopRequestedText = false) :
    (outputReaderRun s raws).gateSet = false := by
  induction raws generalizing s with
  | nil => exact hg
  | cons r rest ih =>
      have hr := h r (List.mem_cons_self r rest)
      refine ih (checkForErrors s (pyRstrip r)) ?_ ?_
      · rw [checkForErrors_gateSet _ _ hr.1 hr.2]; exact hg
      · intro raw hraw
        exact h raw (List.mem_cons_of_mem r hraw)

theorem cleanupFiles_owned (s : CRState) (d : String)
    (hd : s.workingDir = some d) (hf : s.cleanupWorkingDir = true) :
    cleanupFiles s =
      ({ s with workingDir := none, removedDirs := s.removedDirs ++ [d] }, []) := by
  unfold cleanupFiles
  rw [hd]
  simp [hf]

theorem cleanupFiles_not_owned (s : CRState) (d : String)
    (hd : s.workingDir = some d) (hf : s.cleanupWorkingDir = false) :
    cleanupFiles s = (s, [.cleanupWarning]) := by
  unfold cleanupFiles
  rw [hd]
  simp [hf]

theorem cleanupFiles_gone (s : CRState) (hd : s.workingDir = none) :
    cleanupFiles s = (s, []) := by
  unfold cleanupFiles
  rw [hd]

theorem getFileContents_ok (fs : String → Option String)
    (outputFiles : List (String × String)) (g : String × String → String)
    (hok : ∀ lp ∈ outputFiles, fs lp.2 = some (g lp)) :
    getFileContents fs outputFiles =
      .ok (outputFiles.map (fun lp => (lp.1, g lp))) := by
  induction outputFiles with
  | nil => rfl
  | cons hd tl ih =>
      have hhd : fs hd.2 = some (g hd) := hok hd (List.mem_cons_self hd tl)
      have htl := ih (fun lp hlp => hok lp (List.mem_cons_of_mem hd hlp))
      unfold getFileContents
      rw [hhd, htl]
      rfl

/- Claim theorems. -/

/-- Claim C6: after `stop_subprocess` reads back the final exit status via
`poll()`, a negative return code (killed by signal) produces a warning log and
a positive explicit exit code produces an error log; in both cases the function
returns normally with the code recorded (the `CalledProcessError` raise is
commented out in the source), leaving any hard failure to `raise_for_errors`. -/
theorem stop_logs_exit_status (s : CRState) (rc : Int)
    (hcmd : s.hasCommand = true) (hproc : s.hasProcess = true) :
    (rc < 0 → stopSubprocess rc s =
      ({ s with returncode := some rc }, [.killedWarning rc])) ∧
    (0 < rc → stopSubprocess rc s =
      ({ s with returncode := some rc }, [.errorExit rc])) := by
  unfold stopSubprocess
  constructor
  · intro hneg
    have h1 : ¬ rc > 0 := by omega
    simp [hcmd, hproc, h1, hneg]
  · intro hpos
    simp [hcmd, hproc, hpos]

/-- Witness for C6: a concrete started runner stopped with exit status -15
(SIGTERM, matching the value asserted in `test_mv_missing_file_no_wait`) logs a
killed warning and records the code. -/
theorem stop_logs_exit_status_witness :
    stopSubprocess (-15) (crStart "t" (crInit none false true)) =
      ({ hasCommand := true, workingDir := some "t", cleanupWorkingDir := true,
         hasProcess := true, processes := 1, staged := 1,
         returncode := some (-15), removedDirs := [] },
       [.killedWarning (-15)]) :=
  (stop_logs_exit_status (crStart "t" (crInit none false true)) (-15)
    (by decide) (by decide)).1 (by norm_num)

/-- Claim C7: RDFoxRunner construction fails immediately when the caller's
input mapping uses the reserved master-script target name, and when an explicit
wait value is not one of "endpoint", "exit", "nothing".  An `Except.error`
result means no configuration object exists, so no staging or launch can
follow. -/
theorem init_rejects_reserved_and_bad_wait
    (keys1 keys2 scriptLines : List String)
    (wopt : Option String) (w : String) (exe : Option String)
    (hres : keys1.contains masterKey = true)
    (h2 : keys2.contains masterKey = false)
    (hw : ¬(w = "endpoint" ∨ w = "exit" ∨ w = "nothing")) :
    rdfoxRunnerInit keys1 scriptLines wopt exe = .error .reservedName ∧
    rdfoxRunnerInit keys2 scriptLines (some w) exe = .error .invalidWait := by
  constructor
  · unfold rdfoxRunnerInit
    rw [hres]
    rfl
  · unfold rdfoxRunnerInit
    rw [h2]
    simp only [Bool.false_eq_true, if_false]
    rw [if_neg hw]

/-- Witness for C7: a mapping holding "__master.rdfox" is rejected, and wait
policy "forever" is rejected. -/
theorem init_rejects_reserved_and_bad_wait_witness :
    rdfoxRunnerInit ["__master.rdfox"] ["quit"] none none = .error .reservedName ∧
    rdfoxRunnerInit ["facts.ttl"] ["quit"] (some "forever") none =
      .error .invalidWait :=
  init_rejects_reserved_and_bad_wait ["__master.rdfox"] ["facts.ttl"] ["quit"]
    none "forever" none (by decide) (by decide) (by simp)

/-- Claim C8: cleanup of the working area removes the directory iff the area is
owned (no explicit directory supplied and the keep-working-directory
environment override unset); on a non-owned area it is a no-op with a warning;
and calling it twice is idempotent -- the second call observes the directory is
already gone, does nothing, and cannot raise (`rmtree` runs with
`ignore_errors=True` and the function is total). -/
theorem cleanup_iff_owned (explicitDir : Option String) (envKeep cmd : Bool)
    (fresh : String) (s : CRState)
    (hs : s = setupFiles fresh (crInit explicitDir envKeep cmd)) :
    (s.cleanupWorkingDir = (explicitDir.isNone && !envKeep)) ∧
    (∀ d, s.workingDir = some d → s.cleanupWorkingDir = true →
      cleanupFiles s =
        ({ s with workingDir := none, removedDirs := s.removedDirs ++ [d] }, [])) ∧
    (s.cleanupWorkingDir = false → cleanupFiles s = (s, [.cleanupWarning])) ∧
    ((cleanupFiles (cleanupFiles s).1).1 = (cleanupFiles s).1) ∧
    (s.cleanupWorkingDir = true →
      cleanupFiles (cleanupFiles s).1 = ((cleanupFiles s).1, [])) := by
  have hwd : ∃ d, s.workingDir = some d := by
    subst hs
    cases explicitDir with
    | none => exact ⟨fresh, rfl⟩
    | some d => exact ⟨d, rfl⟩
  obtain ⟨d, hd⟩ := hwd
  refine ⟨?_, ?_, ?_, ?_, ?_⟩
  · subst hs
    cases explicitDir <;> rfl
  · intro d2 hd2 hf
    exact cleanupFiles_owned s d2 hd2 hf
  · intro hf
    exact cleanupFiles_not_owned s d hd hf
  · by_cases hf : s.cleanupWorkingDir = true
    · rw [cleanupFiles_owned s d hd hf]
      rw [cleanupFiles_gone _ rfl]
    · rw [cleanupFiles_not_owned s d hd (by simpa using hf)]
      rw [cleanupFiles_not_owned s d hd (by simpa using hf)]
  · intro hf
    rw [cleanupFiles_owned s d hd hf]
    rw [cleanupFiles_gone _ rfl]

/-- Witness for C8: an auto-created area (no explicit directory, env unset) is
removed on the first cleanup and untouched by the second: the double cleanup
equals the single one and the second call emits nothing. -/
theorem cleanup_iff_owned_witness :
    cleanupFiles (cleanupFiles (setupFiles "tmpA" (crInit none false true))).1 =
      ((cleanupFiles (setupFiles "tmpA" (crInit none false true))).1, []) :=
  (cleanup_iff_owned none false true "tmpA"
    (setupFiles "tmpA" (crInit none false true)) rfl).2.2.2.2 (by decide)

/-- Claim C9: the one-shot `run_in_dir` raises `CalledProcessError` for a
non-zero return code, and only after the output stream has been fully drained
(the error value carries every right-stripped line); for a zero return code it
returns the label-to-file-text mapping.  By contrast `stop_subprocess` in the
supervisor never raises on a non-zero code: it returns a state recording it. -/
theorem run_in_dir_nonzero_raises (outLines : List String) (rc : Int)
    (fs : String → Option String) (outputFiles : List (String × String))
    (g : String × String → String)
    (hok : ∀ lp ∈ outputFiles, fs lp.2 = some (g lp)) :
    (rc ≠ 0 → runInDir true outLines rc fs outputFiles =
        .error (.calledProcess rc (outLines.map pyRstrip))) ∧
    (rc = 0 → runInDir true outLines rc fs outputFiles =
        .ok (outputFiles.map (fun lp => (lp.1, g lp)))) ∧
    (∀ (s : CRState) (rc2 : Int), s.hasCommand = true → s.hasProcess = true →
      ((stopSubprocess rc2 s).1).returncode = some rc2) := by
  refine ⟨?_, ?_, ?_⟩
  · intro hne
    unfold runInDir runSubprocess
    simp [hne]
  · intro h0
    unfold runInDir runSubprocess
    simp only [h0]
    simp [getFileContents_ok fs outputFiles g hok]
  · intro s rc2 hcmd hproc
    unfold stopSubprocess
    simp [hcmd, hproc]

/-- Witness for C9: a failing command (`rc = 2`) raises CalledProcessError
carrying the drained, right-stripped stream. -/
theorem run_in_dir_nonzero_raises_witness :
    runInDir true ["out 1 \t", "out 2"] 2
        (fun p => if p = "answer.csv" then some "s,p,o" else none)
        [("result", "answer.csv")] =
      .error (.calledProcess 2 ["out 1", "out 2"]) :=
  (run_in_dir_nonzero_raises ["out 1 \t", "out 2"] 2
    (fun p => if p = "answer.csv" then some "s,p,o" else none)
    [("result", "answer.csv")] (fun _ => "s,p,o") (by decide)).1 (by norm_num)

/-- Claim C2: while accumulating a multi-line error block, a non-continuation
line (one not beginning with indentation whitespace) closes the block --
appending the joined buffer to the error log when non-empty -- and is then
itself re-classified fresh against all rules; in particular a block followed
immediately by a single-line-error-matching line yields two distinct entries in
the error log. -/
theorem block_close_then_reclassify (s : RState) (line : String)
    (htr : s.multilineError.truthy = true)
    (hni : startsIndented line = false) :
    checkForErrors s line = classifyRules (closeBlock s) line ∧
    (∀ buf, s.multilineError = .acc buf → joinNL buf ≠ "" →
      errorPatternMatch line = true → endpointMatch line = none →
      (checkForErrors s line).errors = s.errors ++ [joinNL buf, line]) := by
  have hsp : pyStartsWith line " " = false := not_indented_not_space line hni
  have hmain : checkForErrors s line = classifyRules (closeBlock s) line := by
    unfold checkForErrors
    simp [htr, hsp]
  refine ⟨hmain, ?_⟩
  intro buf hacc hj herr hep
  rw [hmain]
  have hclose : closeBlock s =
      { s with multilineError := .off, errors := s.errors ++ [joinNL buf] } := by
    unfold closeBlock
    rw [hacc]
    simp [hj]
  rw [hclose]
  unfold classifyRules
  rw [hep]
  simp [herr]

/-- Witness for C2: a two-line block closed by "Error: boom" records the joined
block and then the new single-line error, as two entries. -/
theorem block_close_then_reclassify_witness :
    (checkForErrors
      (feedLines (rdfoxInitState false)
        ["An error occurred while executing the command:", "  first", "  second"])
      "Error: boom").errors =
      (feedLines (rdfoxInitState false)
        ["An error occurred while executing the command:", "  first", "  second"]).errors
        ++ [joinNL ["first", "second"], "Error: boom"] :=
  (block_close_then_reclassify
    (feedLines (rdfoxInitState false)
      ["An error occurred while executing the command:", "  first", "  second"])
    "Error: boom" (by decide) (by decide)).2
    ["first", "second"] (by decide) (by decide) (by decide) (by decide)

/-- Claim C4: `raise_for_errors` raises a critical error carrying the
accumulated critical message iff the critical flag is set (otherwise a no-op),
and a continuation line in an accumulating block whose stripped content is the
out-of-memory notice sets the flag and records exactly that message, so
`raise_for_errors` then raises an error containing that exact message. -/
theorem critical_oom_escalation_raises (s : RState) (line : String)
    (htr : s.multilineError.truthy = true)
    (hcont : pyStartsWith line " " = true)
    (hoom : pyStrip line = oomMessage) :
    (∀ u : RState, u.criticalError = false → raiseForErrors u = none) ∧
    (∀ u : RState, u.criticalError = true →
      raiseForErrors u = some ("Critical RDFox error: " ++ u.criticalErrorMessage)) ∧
    (checkForErrors s line).criticalError = true ∧
    (checkForErrors s line).criticalErrorMessage = oomMessage ∧
    raiseForErrors (checkForErrors s line) =
      some ("Critical RDFox error: " ++ oomMessage) := by
  have hstep : (checkForErrors s line).criticalError = true ∧
      (checkForErrors s line).criticalErrorMessage = oomMessage := by
    unfold checkForErrors
    simp [htr, hcont, hoom]
  refine ⟨?_, ?_, hstep.1, hstep.2, ?_⟩
  · intro u hu
    unfold raiseForErrors
    simp [hu]
  · intro u hu
    unfold raiseForErrors
    simp [hu]
  · unfold raiseForErrors
    rw [hstep.1, hstep.2]
    simp

/-- Witness for C4: the out-of-memory line arriving as the continuation of a
block makes `raise_for_errors` raise with exactly that message. -/
theorem critical_oom_escalation_raises_witness :
    raiseForErrors
      (checkForErrors
        (feedLines (rdfoxInitState false)
          ["An error occurred while executing the command:", "  context"])
        "  The RDFox instance has run out of memory.") =
      some ("Critical RDFox error: " ++ oomMessage) :=
  (critical_oom_escalation_raises
    (feedLines (rdfoxInitState false)
      ["An error occurred while executing the command:", "  context"])
    "  The RDFox instance has run out of memory."
    (by decide) (by decide) (by decide)).2.2.2.2

/-- Claim C10: each raw output line is right-stripped of trailing whitespace
before the classifier callback sees it (`outputReaderLine` is by definition the
classifier applied to the stripped line); a whitespace-only raw line therefore
becomes the empty string, and received during block accumulation it acts as a
non-continuation line that closes the block instead of extending it. -/
theorem whitespace_line_closes_block (raw : String) (s : RState)
    (hw : ∀ c ∈ raw.data, pyIsSpace c = true)
    (htr : s.multilineError.truthy = true) :
    outputReaderLine s raw = checkForErrors s (pyRstrip raw) ∧
    pyRstrip raw = "" ∧
    outputReaderLine s raw = closeBlock s ∧
    (outputReaderLine s raw).multilineError = .off := by
  have h0 : pyRstrip raw = "" := by
    unfold pyRstrip
    have hnil : raw.data.reverse.dropWhile pyIsSpace = [] := by
      rw [List.dropWhile_eq_nil_iff]
      intro x hx
      exact hw x (List.mem_reverse.mp hx)
    rw [hnil]
    rfl
  have hc3 : outputReaderLine s raw = closeBlock s := by
    unfold outputReaderLine
    rw [h0]
    unfold checkForErrors
    have hsp : pyStartsWith "" " " = false := by decide
    simp [htr, hsp, classifyRules_empty]
  exact ⟨rfl, h0, hc3, by rw [hc3]; exact closeBlock_multilineError s⟩

/-- Witness for C10: the raw line " \t " closes a block in progress. -/
theorem whitespace_line_closes_block_witness :
    outputReaderLine
      (feedLines (rdfoxInitState false)
        ["An error occurred while executing the command:", "  partial"])
      " \t " =
    closeBlock
      (feedLines (rdfoxInitState false)
        ["An error occurred while executing the command:", "  partial"]) :=
  (whitespace_line_closes_block " \t "
    (feedLines (rdfoxInitState false)
      ["An error occurred while executing the command:", "  partial"])
    (by decide) (by decide)).2.2.1

/-- Claim C1 counterexample: a lifecycle whose output is the single line
"hello" -- which matches neither the readiness pattern nor the stop-requested
pattern, so the gate is never fired by a line -- ends with the gate still
unfired when the reading task exits: there is no fire-on-task-exit safety net,
so a caller blocked in start() waiting for readiness is not released. -/
theorem gate_safety_net_cex :
    endpointMatch (pyRstrip "hello") = none ∧
    pyStartsWith (pyRstrip "hello") stopRequestedText = false ∧
    waiterReleased ["hello"] = false := by decide

/-- Claim C1 (amended): the reading task fires the readiness gate only from a
classified readiness or stop-requested line; reaching end-of-stream fires
nothing, so whenever no such line occurs in the output the gate is still
unfired when the task exits and the start() waiter is not released. -/
theorem gate_unfired_at_task_exit (raws : List String)
    (h : ∀ raw ∈ raws, endpointMatch (pyRstrip raw) = none ∧
         pyStartsWith (pyRstrip raw) stopRequestedText = false) :
    waiterReleased raws = false := by
  unfold waiterReleased
  exact outputReaderRun_gate raws (rdfoxInitState true) rfl h

/-- Witness for the amended C1: a two-line hum-drum output stream leaves the
gate unfired at task exit. -/
theorem gate_unfired_at_task_exit_witness :
    waiterReleased ["starting up", "loading data"] = false :=
  gate_unfired_at_task_exit ["starting up", "loading data"] (by decide)

/-- Claim C3 counterexample: calling start() a second time on an
already-started CommandRunner does not fail -- it stages the input files a
second time and launches a second subprocess (there is no InvalidStateError
guard in the code). -/
theorem start_reentrant_cex :
    (crStart "t2" (crStart "t1" (crInit none false true))).processes = 2 ∧
    (crStart "t2" (crStart "t1" (crInit none false true))).staged = 2 := by decide

/-- Claim C3 (amended): start() is not guarded at all -- every call, whatever
the current state, re-stages the files and launches another process; and
stop() on a never-started instance is a no-op that leaves the state unchanged
(only a warning is logged). -/
theorem start_restages_stop_noop (s : CRState) (f : String) (rc : Int)
    (explicitDir : Option String) (envKeep cmd : Bool)
    (hcmd : s.hasCommand = true) :
    (crStart f s).processes = s.processes + 1 ∧
    (crStart f s).staged = s.staged + 1 ∧
    (crStop rc (crInit explicitDir envKeep cmd)).1 = crInit explicitDir envKeep cmd := by
  refine ⟨?_, ?_, ?_⟩
  · unfold crStart startSubprocess setupFiles
    cases hwd : s.workingDir <;> simp [hcmd]
  · unfold crStart startSubprocess setupFiles
    cases hwd : s.workingDir <;> simp [hcmd]
  · unfold crStop stopSubprocess cleanupFiles crInit
    cases cmd <;> cases explicitDir <;> cases envKeep <;> simp

/-- Witness for the amended C3: a started runner accepts a second start, and a
freshly constructed runner ignores stop(). -/
theorem start_restages_stop_noop_witness :
    (crStop 0 (crInit (some "given") false true)).1 =
      crInit (some "given") false true :=
  (start_restages_stop_noop (crStart "t1" (crInit none false true)) "t2" 0
    (some "given") false true (by decide)).2.2

/-- Claim C5 counterexample: after an accumulating block has already recorded
the out-of-memory notice as the critical message, a critical-block-start
marker line seen outside any block (conjunct 1 shows accumulation is off) sets
the flag, but the very next line "replacement message" is NOT captured as the
critical message -- the message keeps its earlier value, contradicting the
claim's unconditional "next line is captured verbatim". -/
theorem critical_marker_capture_cex :
    (feedLines (rdfoxInitState false)
      ["An error occurred while executing the command:",
       "  The RDFox instance has run out of memory.",
       "done"]).multilineError = MLE.off ∧
    (feedLines (rdfoxInitState false)
      ["An error occurred while executing the command:",
       "  The RDFox instance has run out of memory.",
       "done",
       "A critical error occurred while running RDFox:"]).criticalError = true ∧
    (feedLines (rdfoxInitState false)
      ["An error occurred while executing the command:",
       "  The RDFox instance has run out of memory.",
       "done",
       "A critical error occurred while running RDFox:",
       "replacement message"]).criticalErrorMessage ≠ "replacement message" := by
  decide

/-- Claim C5 (amended): when the critical-block-start marker arrives outside an
accumulating block in a state where no critical error has been flagged and no
critical message recorded, the flag is set immediately; the next line,
regardless of indentation, is then assigned verbatim as the critical message;
and provided that captured line is non-empty, the following line is classified
normally again. -/
theorem critical_marker_capture (s : RState) (l2 l3 : String)
    (hm : s.multilineError.truthy = false)
    (hc : s.criticalError = false)
    (hmsg : s.criticalErrorMessage = "") :
    (checkForErrors s criticalMarker).criticalError = true ∧
    (checkForErrors (checkForErrors s criticalMarker) l2).criticalErrorMessage = l2 ∧
    (l2 ≠ "" →
      checkForErrors (checkForErrors (checkForErrors s criticalMarker) l2) l3 =
        classifyRules (checkForErrors (checkForErrors s criticalMarker) l2) l3) := by
  have hep : endpointMatch criticalMarker = none := by decide
  have herr : errorPatternMatch criticalMarker = false := by decide
  have hml : multilinePatternMatch criticalMarker = false := by decide
  have h1 : checkForErrors s criticalMarker = { s with criticalError := true } := by
    unfold checkForErrors
    simp only [hm, Bool.false_eq_true, if_false, hc, Bool.false_and,
      Bool.false_eq_true, if_false]
    unfold classifyRules
    rw [hep]
    simp [herr, hml]
  have h2 : checkForErrors { s with criticalError := true } l2 =
      { s with criticalError := true, criticalErrorMessage := l2 } := by
    unfold checkForErrors
    simp [hm, hmsg]
  refine ⟨by rw [h1], by rw [h1, h2], ?_⟩
  intro hl2
  rw [h1, h2]
  unfold checkForErrors
  simp [hm, hl2]

/-- Witness for the amended C5: from a pristine state, the marker then "boom"
records "boom" as the critical message. -/
theorem critical_marker_capture_witness :
    (checkForErrors (checkForErrors (rdfoxInitState false) criticalMarker)
      "boom").criticalErrorMessage = "boom" :=
  (critical_marker_capture (rdfoxInitState false) "boom" "later line"
    rfl rfl rfl).2.1

end RdfoxRunner
